import Mathlib

/-!
# AudioFileReader (SpleeterMsvcExe): open / read / close

A shallow embedding of `src/AudioFileReader.c`.

* Pointers are modelled by `Ptr` (null or pointing at a live object); a pointer to a
  struct whose contents matter is an `Option`.
* Every external step (an FFmpeg call, an allocation) takes its outcome from an
  explicit oracle record (`OpenEnv`, `ReadEnv`), one field per call of the source.
* The calls a function performs are appended, in execution order, to `World.trace`;
  `World.live` is the ledger of resources acquired and not yet released.
* A function either returns, or stops at a null-pointer dereference, or stops at a
  failed `assert` (`Outcome`).
* `durationInSeconds` (a `double`) and the verbose dump are not modelled: no control
  flow depends on them.
-/

namespace Spleeter

/-- A C pointer whose target's contents are not inspected: null or pointing at a live object. -/
inductive Ptr where
  | NULL
  | live
  deriving DecidableEq, Repr

/-- The `codec_type` of a stream (`enum AVMediaType` of libavutil). -/
inductive AVMediaType where
  | AVMEDIA_TYPE_UNKNOWN
  | AVMEDIA_TYPE_VIDEO
  | AVMEDIA_TYPE_AUDIO
  | AVMEDIA_TYPE_DATA
  | AVMEDIA_TYPE_SUBTITLE
  | AVMEDIA_TYPE_ATTACHMENT
  deriving DecidableEq, Repr

/-- The struct `AudioSampleType` (target output format), as used by the reader. -/
structure AudioSampleType where
  sampleValueFormat : Int
  sampleRate : Int
  channelCount : Int
  deriving DecidableEq, Repr

/-- The struct `AudioFileReader`, with the fields `AudioFileReader.c` uses. -/
structure AudioFileReader where
  filenameUtf8 : Ptr
  outputSampleType : Option AudioSampleType
  _inputFormatContext : Ptr
  _audioStreamIndex : Int
  _audioDecoder : Ptr
  _audioDecoderContext : Ptr
  _resamplerContext : Ptr
  _tempPacket : Ptr
  _tempFrame : Ptr
  _resamplerOutputBufferSampleCountPerChannel : Int
  _resamplerOutputBufferSize : Int
  _resamplerOutputBuffer : Ptr
  deriving DecidableEq, Repr

/-- Modelled from the spec: `MEMORY_ALLOC_STRUCT` (Memory.h is not among the sources) hands
out a zero-filled record, so that a partially initialised session has null fields
("partially-initialized sessions (from a failed open) release cleanly"). -/
def AudioFileReader.zeroed : AudioFileReader :=
  { filenameUtf8 := .NULL, outputSampleType := none, _inputFormatContext := .NULL,
    _audioStreamIndex := 0, _audioDecoder := .NULL, _audioDecoderContext := .NULL,
    _resamplerContext := .NULL, _tempPacket := .NULL, _tempFrame := .NULL,
    _resamplerOutputBufferSampleCountPerChannel := 0, _resamplerOutputBufferSize := 0,
    _resamplerOutputBuffer := .NULL }

/-- The resources a session owns. -/
inductive Resource where
  | sessionRecord
  | filenameUtf8
  | outputSampleType
  | inputFormatContext
  | audioDecoderContext
  | resamplerContext
  | tempPacket
  | tempFrame
  | resamplerOutputBuffer
  deriving DecidableEq, Repr

/-- The error messages `AudioFileReader.c` emits through `MSG_ERROR`. -/
inductive Msg where
  | allocStructFailed
  | filenameConversionFailed
  | allocSampleTypeFailed
  | avformatAllocContextFailed
  | avformatOpenInputFailed
  | avformatFindStreamInfoFailed
  | audioStreamNotFound
  | audioDecoderNotFound
  | decoderContextAllocFailed
  | copyCodecParametersFailed
  | decoderContextIsNull
  | avcodecOpen2Failed
  | wrongOutputChannelCount
  | getAvSampleFormatFailed
  | swrAllocSetOpts2Failed
  | swrInitFailed
  | avPacketAllocFailed
  | avFrameAllocFailed
  | avcodecSendPacketFailed
  | avcodecReceiveFrameFailed
  | allocResamplerOutputBufferFailed
  | swrConvertFailed
  deriving DecidableEq, Repr

/-- The calls `AudioFileReader.c` makes, as they appear in the trace. -/
inductive Call where
  | MEMORY_ALLOC_STRUCT_AudioFileReader
  | AudioFileCommon_getUtf8StringFromUnicodeString
  | MEMORY_ALLOC_STRUCT_AudioSampleType
  | avformat_alloc_context
  | avformat_open_input
  | avformat_find_stream_info
  | avcodec_find_decoder (streamIndex : Nat)
  | avcodec_alloc_context3
  | avcodec_parameters_to_context
  | avcodec_open2
  | AudioFileCommon_getAvSampleFormat
  | swr_alloc_set_opts2
  | swr_init
  | av_packet_alloc
  | av_frame_alloc
  | av_read_frame
  | avcodec_send_packet
  | avcodec_receive_frame
  | swr_get_out_samples
  | av_samples_get_buffer_size (nb_samples : Int)
  | av_malloc (size : Int)
  | av_freep
  | swr_convert (out_count : Int)
  | memcpy (bytes : Int)
  | av_packet_unref
  | av_frame_free
  | av_packet_free
  | swr_free
  | avcodec_close
  | avformat_close_input
  | Memory_free_outputSampleType
  | Memory_free_filenameUtf8
  | Memory_free_obj
  | MSG_ERROR (msg : Msg)
  deriving DecidableEq, Repr

/-- What the program has done so far: the calls made, in order, and the resources
acquired and not yet released. -/
structure World where
  trace : List Call
  live : List Resource
  deriving DecidableEq, Repr

/-- The world before anything ran. -/
def World.init : World := { trace := [], live := [] }

/-- Record a call. -/
def World.call (w : World) (c : Call) : World := { w with trace := w.trace ++ [c] }

/-- Record that a resource was handed to the session. -/
def World.acquire (w : World) (r : Resource) : World := { w with live := r :: w.live }

/-- Record that a resource was released. -/
def World.release (w : World) (r : Resource) : World := { w with live := w.live.erase r }

/-- How a call of one of the three operations ends. -/
inductive Outcome (α : Type) where
  | returned (value : α) (w : World)
  | nullDereference (w : World)
  | assertionFailed (w : World)
  deriving DecidableEq, Repr

/-- The world at the end of a call. -/
def Outcome.world {α : Type} : Outcome α → World
  | .returned _ w => w
  | .nullDereference w => w
  | .assertionFailed w => w

/-- The value a call returned, if it returned. -/
def Outcome.value? {α : Type} : Outcome α → Option α
  | .returned v _ => some v
  | .nullDereference _ => none
  | .assertionFailed _ => none

/-- Lines 313-346 of `AudioFileReader_close`: the releases performed on a non-null
session `obj`. Each release is guarded by the null check of its field.
For the decoder context the source calls `avcodec_close` and nulls the field.
FFmpeg's `avcodec_close` closes the codec but does not free the `AVCodecContext`
that `avcodec_alloc_context3` allocated (`avcodec_free_context` does, and the source
never calls it), so the call is recorded and nothing leaves the ledger. -/
def AudioFileReader_close.releaseAll (obj : AudioFileReader) (w : World) : World :=
  let w := if obj._resamplerOutputBuffer ≠ .NULL then
      (w.call .av_freep).release .resamplerOutputBuffer else w
  let w := if obj._tempFrame ≠ .NULL then
      (w.call .av_frame_free).release .tempFrame else w
  let w := if obj._tempPacket ≠ .NULL then
      (w.call .av_packet_free).release .tempPacket else w
  let w := if obj._resamplerContext ≠ .NULL then
      (w.call .swr_free).release .resamplerContext else w
  let w := if obj._audioDecoderContext ≠ .NULL then
      w.call .avcodec_close else w
  let w := if obj._inputFormatContext ≠ .NULL then
      (w.call .avformat_close_input).release .inputFormatContext else w
  let w := if obj.outputSampleType ≠ none then
      (w.call .Memory_free_outputSampleType).release .outputSampleType else w
  let w := if obj.filenameUtf8 ≠ .NULL then
      (w.call .Memory_free_filenameUtf8).release .filenameUtf8 else w
  (w.call .Memory_free_obj).release .sessionRecord

/-- The function `AudioFileReader_close(AudioFileReader **objPtr)`.
`objPtr = none` is a null `objPtr`; `some h` points at a handle `h`, where `h = none` is
a null handle. The value returned is the handle cell after the call.
Only `objPtr` is compared with NULL; `obj = *objPtr` is then dereferenced at
`obj->_resamplerOutputBuffer`.
`Memory_free(objPtr)` (Memory.h is not among the sources) frees the record and, as the
handle-to-handle convention of the spec says, nulls the handle. -/
def AudioFileReader_close (objPtr : Option (Option AudioFileReader)) (w : World) :
    Outcome (Option (Option AudioFileReader)) :=
  match objPtr with
  | none => .returned none w
  | some none => .nullDereference w
  | some (some obj) => .returned (some none) (AudioFileReader_close.releaseAll obj w)

/-- The pure helper functions defined outside `AudioFileReader.c` whose values the code
consumes: `AudioFileCommon_getAvSampleFormat` (AudioFileCommon.c) and FFmpeg's
`av_samples_get_buffer_size(NULL, nb_channels, nb_samples, sample_fmt, 1)`. -/
structure Lib where
  AudioFileCommon_getAvSampleFormat : Int → Int
  av_samples_get_buffer_size : Int → Int → Int → Int

/-- FFmpeg's `AV_SAMPLE_FMT_NONE`. -/
def AV_SAMPLE_FMT_NONE : Int := -1

/-- FFmpeg's `AVERROR(EAGAIN)`: `-EAGAIN` with `EAGAIN = 11`. -/
def AVERROR_EAGAIN : Int := -11

/-- FFmpeg's `AVERROR_EOF`: `-MKTAG('E','O','F',' ')`. -/
def AVERROR_EOF : Int := -541478725

/-- The outcomes of the external steps of one `AudioFileReader_open` call, one field per
call in source order. A `Bool` says whether the call handed back a non-null object; an
`Int` is the call's return value. `streams` lists `streams[i]->codecpar->codec_type` for
`i < nb_streams`. -/
structure OpenEnv where
  alloc_AudioFileReader : Bool
  getUtf8StringFromUnicodeString : Bool
  alloc_AudioSampleType : Bool
  avformat_alloc_context : Bool
  avformat_open_input : Int
  avformat_find_stream_info : Int
  streams : List AVMediaType
  avcodec_find_decoder : Bool
  avcodec_alloc_context3 : Bool
  avcodec_parameters_to_context : Int
  avcodec_open2 : Int
  swr_alloc_set_opts2 : Bool
  swr_init : Int
  av_packet_alloc : Bool
  av_frame_alloc : Bool
  deriving Repr

/-- Lines 97-104 of `AudioFileReader_open`: the `while` loop that advances
`audioStreamIndex` over the streams not yet visited (`streams[audioStreamIndex ..]`)
and stops at the first stream whose `codec_type` is `AVMEDIA_TYPE_AUDIO`, or at
`nb_streams`. -/
def AudioFileReader_open.scan : List AVMediaType → Nat → Nat
  | [], audioStreamIndex => audioStreamIndex
  | codec_type :: rest, audioStreamIndex =>
    if codec_type = AVMediaType.AVMEDIA_TYPE_AUDIO then audioStreamIndex
    else AudioFileReader_open.scan rest (audioStreamIndex + 1)

/-- The `err:` label of `AudioFileReader_open`: close the session if there is one,
return NULL. -/
def AudioFileReader_open.err (obj : Option AudioFileReader) (w : World) :
    Outcome (Option AudioFileReader) :=
  match obj with
  | none => .returned none w
  | some o =>
    match AudioFileReader_close (some (some o)) w with
    | .returned _ w1 => .returned none w1
    | .nullDereference w1 => .nullDereference w1
    | .assertionFailed w1 => .assertionFailed w1

/-- The function `AudioFileReader_open(filename, outputSampleType)`; the value returned is the
session, `none` for NULL.
On failure `avformat_open_input` frees the context it was given and nulls the pointer,
and `swr_alloc_set_opts2` leaves `_resamplerContext` null (FFmpeg's contracts). -/
def AudioFileReader_open (lib : Lib) (env : OpenEnv) (filename : Ptr)
    (outputSampleType : Option AudioSampleType) (w : World) :
    Outcome (Option AudioFileReader) :=
  match outputSampleType with
  | none => AudioFileReader_open.err none w
  | some ost =>
  if filename = .NULL then AudioFileReader_open.err none w else
  let w := w.call .MEMORY_ALLOC_STRUCT_AudioFileReader
  if env.alloc_AudioFileReader = false then
    AudioFileReader_open.err none (w.call (.MSG_ERROR .allocStructFailed)) else
  let w := w.acquire .sessionRecord
  let obj := AudioFileReader.zeroed
  let w := w.call .AudioFileCommon_getUtf8StringFromUnicodeString
  if env.getUtf8StringFromUnicodeString = false then
    AudioFileReader_open.err (some obj) (w.call (.MSG_ERROR .filenameConversionFailed)) else
  let w := w.acquire .filenameUtf8
  let obj := { obj with filenameUtf8 := .live }
  let w := w.call .MEMORY_ALLOC_STRUCT_AudioSampleType
  if env.alloc_AudioSampleType = false then
    AudioFileReader_open.err (some obj) (w.call (.MSG_ERROR .allocSampleTypeFailed)) else
  let w := w.acquire .outputSampleType
  let obj := { obj with outputSampleType := some ost }
  let w := w.call .avformat_alloc_context
  if env.avformat_alloc_context = false then
    AudioFileReader_open.err (some obj) (w.call (.MSG_ERROR .avformatAllocContextFailed)) else
  let w := w.acquire .inputFormatContext
  let obj := { obj with _inputFormatContext := .live }
  let w := w.call .avformat_open_input
  if env.avformat_open_input < 0 then
    AudioFileReader_open.err (some { obj with _inputFormatContext := .NULL })
      ((w.release .inputFormatContext).call (.MSG_ERROR .avformatOpenInputFailed)) else
  let w := w.call .avformat_find_stream_info
  if env.avformat_find_stream_info < 0 then
    AudioFileReader_open.err (some obj) (w.call (.MSG_ERROR .avformatFindStreamInfoFailed)) else
  let audioStreamIndex := AudioFileReader_open.scan env.streams 0
  if audioStreamIndex = env.streams.length then
    AudioFileReader_open.err (some obj) (w.call (.MSG_ERROR .audioStreamNotFound)) else
  let obj := { obj with _audioStreamIndex := (audioStreamIndex : Int) }
  let w := w.call (.avcodec_find_decoder audioStreamIndex)
  if env.avcodec_find_decoder = false then
    AudioFileReader_open.err (some obj) (w.call (.MSG_ERROR .audioDecoderNotFound)) else
  let obj := { obj with _audioDecoder := .live }
  let w := w.call .avcodec_alloc_context3
  if env.avcodec_alloc_context3 = false then
    AudioFileReader_open.err (some obj) (w.call (.MSG_ERROR .decoderContextAllocFailed)) else
  let w := w.acquire .audioDecoderContext
  let obj := { obj with _audioDecoderContext := .live }
  let w := w.call .avcodec_parameters_to_context
  if env.avcodec_parameters_to_context < 0 then
    AudioFileReader_open.err (some obj) (w.call (.MSG_ERROR .copyCodecParametersFailed)) else
  if obj._audioDecoderContext = .NULL then
    AudioFileReader_open.err (some obj) (w.call (.MSG_ERROR .decoderContextIsNull)) else
  let w := w.call .avcodec_open2
  if env.avcodec_open2 < 0 then
    AudioFileReader_open.err (some obj) (w.call (.MSG_ERROR .avcodecOpen2Failed)) else
  if ¬ (ost.channelCount = 1 ∨ ost.channelCount = 2) then
    AudioFileReader_open.err (some obj) (w.call (.MSG_ERROR .wrongOutputChannelCount)) else
  let w := w.call .AudioFileCommon_getAvSampleFormat
  let outputSampleFormat := lib.AudioFileCommon_getAvSampleFormat ost.sampleValueFormat
  if outputSampleFormat = AV_SAMPLE_FMT_NONE then
    AudioFileReader_open.err (some obj) (w.call (.MSG_ERROR .getAvSampleFormatFailed)) else
  let w := w.call .swr_alloc_set_opts2
  if env.swr_alloc_set_opts2 = false then
    AudioFileReader_open.err (some obj) (w.call (.MSG_ERROR .swrAllocSetOpts2Failed)) else
  let w := w.acquire .resamplerContext
  let obj := { obj with _resamplerContext := .live }
  let w := w.call .swr_init
  if env.swr_init < 0 then
    AudioFileReader_open.err (some obj) (w.call (.MSG_ERROR .swrInitFailed)) else
  let w := w.call .av_packet_alloc
  if env.av_packet_alloc = false then
    AudioFileReader_open.err (some obj) (w.call (.MSG_ERROR .avPacketAllocFailed)) else
  let w := w.acquire .tempPacket
  let obj := { obj with _tempPacket := .live }
  let w := w.call .av_frame_alloc
  if env.av_frame_alloc = false then
    AudioFileReader_open.err (some obj) (w.call (.MSG_ERROR .avFrameAllocFailed)) else
  let w := w.acquire .tempFrame
  let obj := { obj with _tempFrame := .live }
  let obj := { obj with
    _resamplerOutputBufferSampleCountPerChannel := 0,
    _resamplerOutputBufferSize := 0,
    _resamplerOutputBuffer := .NULL }
  .returned (some obj) w

/-- The outcomes of the external steps of one `AudioFileReader_read` call, one field per
call in source order: return values of the FFmpeg calls, the `stream_index` of the
packet pulled, and whether `av_malloc` handed back a non-null block. -/
structure ReadEnv where
  av_read_frame : Int
  stream_index : Int
  avcodec_send_packet : Int
  avcodec_receive_frame : Int
  swr_get_out_samples : Int
  av_malloc : Bool
  swr_convert : Int
  deriving DecidableEq, Repr

/-- Lines 276-303 of `AudioFileReader_read`: convert into the staging buffer, clamp the
count to the destination capacity, copy, unref the packet, return the count.
The `assert` is taken as enabled: when its condition is false the call stops there. -/
def AudioFileReader_read.convertAndCopy (lib : Lib) (env : ReadEnv) (ost : AudioSampleType)
    (outputSampleFormat : Int) (obj : AudioFileReader)
    (destBufferSampleCountPerChannel : Int) (w : World) : Outcome (Int × AudioFileReader) :=
  let w := w.call (.swr_convert obj._resamplerOutputBufferSampleCountPerChannel)
  let outputSampleCountPerChannel := env.swr_convert
  if outputSampleCountPerChannel < 0 then
    .returned (-1, obj) (w.call (.MSG_ERROR .swrConvertFailed)) else
  let copySampleCountPerChannel :=
    if outputSampleCountPerChannel > destBufferSampleCountPerChannel then
      destBufferSampleCountPerChannel
    else outputSampleCountPerChannel
  if copySampleCountPerChannel > 0 then
    let w := w.call (.av_samples_get_buffer_size copySampleCountPerChannel)
    let copyDataLengthInBytes :=
      lib.av_samples_get_buffer_size ost.channelCount copySampleCountPerChannel outputSampleFormat
    if ¬ (copyDataLengthInBytes ≤ obj._resamplerOutputBufferSize) then .assertionFailed w else
    let w := w.call (.memcpy copyDataLengthInBytes)
    let w := w.call .av_packet_unref
    .returned (copySampleCountPerChannel, obj) w
  else
    let w := w.call .av_packet_unref
    .returned (copySampleCountPerChannel, obj) w

/-- The function `AudioFileReader_read(obj, destBuffer, destBufferSampleCountPerChannel)`; the value
returned is the `int` result together with the session record as the call leaves it.
`obj->_tempPacket`, `obj->outputSampleType` and `obj->_tempFrame` are dereferenced where
the source dereferences them. -/
def AudioFileReader_read (lib : Lib) (env : ReadEnv) (obj : AudioFileReader)
    (destBufferSampleCountPerChannel : Int) (w : World) : Outcome (Int × AudioFileReader) :=
  let w := w.call .av_read_frame
  if env.av_read_frame < 0 then .returned (-1, obj) w else
  if obj._tempPacket = .NULL then .nullDereference w else
  if env.stream_index ≠ obj._audioStreamIndex then .returned (0, obj) w else
  let w := w.call .avcodec_send_packet
  if env.avcodec_send_packet < 0 then
    .returned (-1, obj) (w.call (.MSG_ERROR .avcodecSendPacketFailed)) else
  let w := w.call .avcodec_receive_frame
  if env.avcodec_receive_frame = AVERROR_EAGAIN ∨ env.avcodec_receive_frame = AVERROR_EOF then
    .returned (0, obj) w
  else if env.avcodec_receive_frame < 0 then
    .returned (-1, obj) (w.call (.MSG_ERROR .avcodecReceiveFrameFailed)) else
  match obj.outputSampleType with
  | none => .nullDereference w
  | some ost =>
  let w := w.call .AudioFileCommon_getAvSampleFormat
  let outputSampleFormat := lib.AudioFileCommon_getAvSampleFormat ost.sampleValueFormat
  if obj._tempFrame = .NULL then .nullDereference w else
  let w := w.call .swr_get_out_samples
  let resamplerUpperBoundOutputSampleCountPerChannel := env.swr_get_out_samples
  if obj._resamplerOutputBuffer = .NULL
      ∨ resamplerUpperBoundOutputSampleCountPerChannel
          > obj._resamplerOutputBufferSampleCountPerChannel then
    let w := if obj._resamplerOutputBuffer ≠ .NULL then
        (w.call .av_freep).release .resamplerOutputBuffer else w
    let obj := { obj with _resamplerOutputBuffer := .NULL }
    let obj := { obj with
      _resamplerOutputBufferSampleCountPerChannel :=
        resamplerUpperBoundOutputSampleCountPerChannel }
    let w := w.call (.av_samples_get_buffer_size resamplerUpperBoundOutputSampleCountPerChannel)
    let obj := { obj with
      _resamplerOutputBufferSize :=
        lib.av_samples_get_buffer_size ost.channelCount
          resamplerUpperBoundOutputSampleCountPerChannel outputSampleFormat }
    let w := w.call (.av_malloc obj._resamplerOutputBufferSize)
    if env.av_malloc = false then
      .returned (-1, obj) (w.call (.MSG_ERROR .allocResamplerOutputBufferFailed)) else
    let w := w.acquire .resamplerOutputBuffer
    let obj := { obj with _resamplerOutputBuffer := .live }
    AudioFileReader_read.convertAndCopy lib env ost outputSampleFormat obj
      destBufferSampleCountPerChannel w
  else
    AudioFileReader_read.convertAndCopy lib env ost outputSampleFormat obj
      destBufferSampleCountPerChannel w

/-- A session's life after open: the `read` calls in `calls` (oracle and destination
capacity of each), one after the other; `none` when a call did not return. -/
def runReads (lib : Lib) : AudioFileReader → World → List (ReadEnv × Int) →
    Option (AudioFileReader × World)
  | obj, w, [] => some (obj, w)
  | obj, w, (env, dest) :: rest =>
    match AudioFileReader_read lib env obj dest w with
    | .returned (_, obj1) w1 => runReads lib obj1 w1 rest
    | .nullDereference _ => none
    | .assertionFailed _ => none

/-- The pointers `AudioFileReader_read` dereferences are non-null, as they are in every
session `AudioFileReader_open` returns. -/
def AudioFileReader.Usable (obj : AudioFileReader) : Prop :=
  obj._tempPacket = .live ∧ obj._tempFrame = .live ∧ obj.outputSampleType ≠ none

instance (obj : AudioFileReader) : Decidable obj.Usable := by
  unfold AudioFileReader.Usable; infer_instance

/-- The call `a` was executed before the first occurrence of the call `b` in `trace`. -/
def executedBefore (a b : Call) (trace : List Call) : Prop :=
  b ∈ trace ∧ a ∈ trace.takeWhile (fun c => decide (c ≠ b))

instance (a b : Call) (trace : List Call) : Decidable (executedBefore a b trace) := by
  unfold executedBefore; infer_instance

/-- An example of the external helpers: format 0 maps to FFmpeg format 1 (16-bit), every
other format is unsupported; a block of `n` samples per channel takes
`channels * n * 2` bytes. -/
def exampleLib : Lib :=
  { AudioFileCommon_getAvSampleFormat := fun f => if f = 0 then 1 else AV_SAMPLE_FMT_NONE
    av_samples_get_buffer_size := fun nb_channels nb_samples _ => nb_channels * nb_samples * 2 }

/-- An example oracle for open: a container with a video stream followed by an audio
stream, every external step succeeding. -/
def exampleOpenEnv : OpenEnv :=
  { alloc_AudioFileReader := true
    getUtf8StringFromUnicodeString := true
    alloc_AudioSampleType := true
    avformat_alloc_context := true
    avformat_open_input := 0
    avformat_find_stream_info := 0
    streams := [.AVMEDIA_TYPE_VIDEO, AVMediaType.AVMEDIA_TYPE_AUDIO]
    avcodec_find_decoder := true
    avcodec_alloc_context3 := true
    avcodec_parameters_to_context := 0
    avcodec_open2 := 0
    swr_alloc_set_opts2 := true
    swr_init := 0
    av_packet_alloc := true
    av_frame_alloc := true }

/-- An example target format: stereo, 44100 Hz, sample format 0. -/
def exampleStereo : AudioSampleType :=
  { sampleValueFormat := 0, sampleRate := 44100, channelCount := 2 }

/-- An example target format with an unsupported channel count (3). -/
def exampleThreeChannels : AudioSampleType :=
  { sampleValueFormat := 0, sampleRate := 44100, channelCount := 3 }

/-- The session `AudioFileReader_open` returns for `exampleOpenEnv` and `exampleStereo`. -/
def exampleSession : AudioFileReader :=
  { filenameUtf8 := .live, outputSampleType := some exampleStereo, _inputFormatContext := .live,
    _audioStreamIndex := 1, _audioDecoder := .live, _audioDecoderContext := .live,
    _resamplerContext := .live, _tempPacket := .live, _tempFrame := .live,
    _resamplerOutputBufferSampleCountPerChannel := 0, _resamplerOutputBufferSize := 0,
    _resamplerOutputBuffer := .NULL }

/-- An example oracle for read: a packet of stream 1, decoded into a frame whose
conversion may yield up to 1024 samples per channel and yields 1000. -/
def exampleRead : ReadEnv :=
  { av_read_frame := 0, stream_index := 1, avcodec_send_packet := 0,
    avcodec_receive_frame := 0, swr_get_out_samples := 1024, av_malloc := true,
    swr_convert := 1000 }

/-- The world after the successful open of `exampleSession`. -/
def exampleOpenWorld : World :=
  (AudioFileReader_open exampleLib exampleOpenEnv .live (some exampleStereo) World.init).world

/-- The example session after one read with `exampleRead`: the staging buffer holds
1024 samples per channel in 4096 bytes. -/
def exampleSessionAfterRead : AudioFileReader :=
  { exampleSession with
    _resamplerOutputBufferSampleCountPerChannel := 1024
    _resamplerOutputBufferSize := 4096
    _resamplerOutputBuffer := .live }

/-- The world after that read. -/
def exampleWorldAfterRead : World :=
  (AudioFileReader_read exampleLib exampleRead exampleSession 512 exampleOpenWorld).world

/-- An example oracle for a read whose staging-buffer allocation fails: the upper bound
is 2048 samples per channel and `av_malloc` returns NULL. -/
def exampleReadAllocFails : ReadEnv :=
  { exampleRead with swr_get_out_samples := 2048, av_malloc := false }

/-- An example oracle for a read in which `swr_get_out_samples` reports an error
(`AVERROR(EINVAL)`) and the allocation of the negative size fails. -/
def exampleReadNegativeBound : ReadEnv :=
  { exampleRead with swr_get_out_samples := -22, av_malloc := false }

/-- The staging buffer of a session that never saw a failed allocation: while the
buffer is null the recorded capacity is still 0. -/
def FreshBuffer (s : AudioFileReader) : Prop :=
  s._resamplerOutputBuffer = .NULL → s._resamplerOutputBufferSampleCountPerChannel = 0

/-- The invariant of the staging buffer: the target format is mono or stereo, and
whenever the buffer is non-null its recorded byte size is the byte size of its
recorded capacity. -/
def SizeMatchesCapacity (lib : Lib) (s : AudioFileReader) : Prop :=
  ∃ t, s.outputSampleType = some t ∧ (t.channelCount = 1 ∨ t.channelCount = 2)
    ∧ (s._resamplerOutputBuffer ≠ .NULL →
        s._resamplerOutputBufferSize
          = lib.av_samples_get_buffer_size t.channelCount
              s._resamplerOutputBufferSampleCountPerChannel
              (lib.AudioFileCommon_getAvSampleFormat t.sampleValueFormat))

/-! ## Helper lemmas -/

/-- Case analysis on the condition of an `if`, for a property of its value. -/
theorem ite_cases {α : Type} {P : α → Prop} {c : Prop} [Decidable c] {a b : α}
    (ha : c → P a) (hb : ¬ c → P b) : P (if c then a else b) := by
  by_cases h : c
  · rw [if_pos h]; exact ha h
  · rw [if_neg h]; exact hb h

/-- The `err:` label always returns NULL, after the releases of close when there is a session. -/
theorem err_eq (obj : Option AudioFileReader) (w : World) :
    AudioFileReader_open.err obj w
      = .returned none (match obj with
          | none => w
          | some o => AudioFileReader_close.releaseAll o w) := by
  cases obj <;> rfl

/-- The scan never moves the index backwards. -/
theorem scan_ge (l : List AVMediaType) (i : Nat) : i ≤ AudioFileReader_open.scan l i := by
  induction l generalizing i with
  | nil => simp [AudioFileReader_open.scan]
  | cons t rest ih =>
    unfold AudioFileReader_open.scan
    split
    · exact le_rfl
    · exact le_trans (Nat.le_succ i) (ih (i + 1))

/-- The scan stops at `nb_streams` at the latest. -/
theorem scan_le (l : List AVMediaType) (i : Nat) :
    AudioFileReader_open.scan l i ≤ i + l.length := by
  induction l generalizing i with
  | nil => simp [AudioFileReader_open.scan]
  | cons t rest ih =>
    unfold AudioFileReader_open.scan
    split
    · simp
    · have := ih (i + 1)
      simp only [List.length_cons]
      omega

/-- When the scan stops before `nb_streams`, it stops at an audio stream. -/
theorem scan_audio (l : List AVMediaType) (i : Nat)
    (h : AudioFileReader_open.scan l i < i + l.length) :
    l[AudioFileReader_open.scan l i - i]? = some AVMediaType.AVMEDIA_TYPE_AUDIO := by
  induction l generalizing i with
  | nil => simp [AudioFileReader_open.scan] at h
  | cons t rest ih =>
    unfold AudioFileReader_open.scan at h ⊢
    split at h
    · rename_i ht
      simp [ht]
    · rename_i ht
      simp only [if_neg ht]
      have hge := scan_ge rest (i + 1)
      have h2 : AudioFileReader_open.scan rest (i + 1) < i + 1 + rest.length := by
        simp only [List.length_cons] at h
        omega
      have := ih (i + 1) h2
      have e : AudioFileReader_open.scan rest (i + 1) - i
          = (AudioFileReader_open.scan rest (i + 1) - (i + 1)) + 1 := by omega
      rw [e, List.getElem?_cons_succ]
      exact this

/-- Every stream the scan passed over is not audio. -/
theorem scan_before (l : List AVMediaType) (i j : Nat)
    (h : j < AudioFileReader_open.scan l i - i) :
    l[j]? ≠ some AVMediaType.AVMEDIA_TYPE_AUDIO := by
  induction l generalizing i j with
  | nil => simp
  | cons t rest ih =>
    unfold AudioFileReader_open.scan at h
    split at h
    · omega
    · rename_i ht
      cases j with
      | zero => simpa using ht
      | succ j =>
        rw [List.getElem?_cons_succ]
        exact ih (i + 1) j (by omega)

/-- The scan reaches `nb_streams` exactly when no stream is audio. -/
theorem scan_eq_length_iff (l : List AVMediaType) :
    AudioFileReader_open.scan l 0 = l.length ↔ ∀ t ∈ l, t ≠ AVMediaType.AVMEDIA_TYPE_AUDIO := by
  constructor
  · intro h t ht heq
    obtain ⟨j, hj, rfl⟩ := List.getElem_of_mem ht
    have := scan_before l 0 j (by omega)
    rw [List.getElem?_eq_getElem hj, heq] at this
    exact this rfl
  · intro h
    by_contra hne
    have hlt : AudioFileReader_open.scan l 0 < 0 + l.length := by
      have := scan_le l 0
      omega
    have ha := scan_audio l 0 hlt
    have hm := List.getElem?_mem ha
    exact h _ hm rfl

/-- The smallest audio index, when there is one, is the index the scan returns. -/
theorem first_audio_iff (l : List AVMediaType) (k : Nat) :
    (k < l.length ∧ l[k]? = some AVMediaType.AVMEDIA_TYPE_AUDIO
        ∧ ∀ j, j < k → l[j]? ≠ some AVMediaType.AVMEDIA_TYPE_AUDIO)
      ↔ (k = AudioFileReader_open.scan l 0 ∧ AudioFileReader_open.scan l 0 ≠ l.length) := by
  constructor
  · rintro ⟨hk, hka, hkb⟩
    have hK : ¬ k < AudioFileReader_open.scan l 0 := fun hlt =>
      scan_before l 0 k (by omega) hka
    have hlt : AudioFileReader_open.scan l 0 < 0 + l.length := by omega
    have ha := scan_audio l 0 hlt
    simp only [Nat.sub_zero] at ha
    have : ¬ AudioFileReader_open.scan l 0 < k := fun hlt2 => hkb _ hlt2 ha
    constructor <;> omega
  · rintro ⟨rfl, hne⟩
    have hle := scan_le l 0
    have hlt : AudioFileReader_open.scan l 0 < 0 + l.length := by omega
    refine ⟨by omega, by simpa using scan_audio l 0 hlt, fun j hj => scan_before l 0 j (by omega)⟩

/-- To prove a property of a value, prove every property that follows from it. -/
theorem pred_intro {α : Type} (a : α) {G : α → Prop}
    (h : ∀ P : α → Prop, (∀ x, (∀ o, x = o → G o) → P x) → P a) :
    ∀ o, a = o → G o :=
  h (fun x => ∀ o, x = o → G o) (fun _ hx => hx)

/-- The clamp of the copy step is the minimum of its two arguments. -/
theorem copy_eq_min (a b : Int) : (if a > b then b else a) = min a b := by
  by_cases h : a > b
  · rw [if_pos h]; omega
  · rw [if_neg h]; omega

/-- The byte size `channels * samples * bytesPerSample` grows with the sample count. -/
theorem bytes_mono (ch m c b : Int) (hch : 0 ≤ ch) (hb : 0 ≤ b) (h : m ≤ c) :
    ch * m * b ≤ ch * c * b :=
  mul_le_mul_of_nonneg_right (mul_le_mul_of_nonneg_left h hch) hb

/-- The session a successful open returns: the pointers read dereferences are set, the staging buffer is empty, the channel count is 1 or 2. -/
theorem open_session (lib : Lib) (env : OpenEnv) (filename : Ptr)
    (ost : Option AudioSampleType) (w : World) (s : AudioFileReader) (w1 : World)
    (h : AudioFileReader_open lib env filename ost w = .returned (some s) w1) :
    s.Usable ∧ s._resamplerOutputBuffer = .NULL
    ∧ s._resamplerOutputBufferSampleCountPerChannel = 0
    ∧ ∃ t, s.outputSampleType = some t ∧ (t.channelCount = 1 ∨ t.channelCount = 2) := by
  revert h
  generalize ho : AudioFileReader_open lib env filename ost w = o
  revert o
  refine pred_intro _ ?_
  intro P hP
  cases ost with
  | none =>
    apply hP
    intro o ho h
    subst ho
    exact absurd h (by simp [AudioFileReader_open, err_eq])
  | some ost =>
    unfold AudioFileReader_open
    dsimp only [AudioFileReader.zeroed]
    repeat' (refine ite_cases (fun _ => ?_) (fun _ => ?_))
    all_goals apply hP
    all_goals intro o ho h
    all_goals subst ho
    all_goals clear hP
    all_goals first
      | (simp [err_eq] at h; done)
      | (simp only [Outcome.returned.injEq, Option.some.injEq] at h
         obtain ⟨rfl, -⟩ := h
         have hcc : ost.channelCount = 1 ∨ ost.channelCount = 2 := not_not.mp ‹_›
         exact ⟨⟨rfl, rfl, by simp⟩, rfl, rfl, ost, rfl, hcc⟩)

/-- A read that returns leaves the session unchanged, or has replaced the staging buffer by one sized for the upper bound of this call. -/
theorem read_returned_cases (lib : Lib) (env : ReadEnv) (obj : AudioFileReader) (dest : Int)
    (w : World) (n : Int) (obj1 : AudioFileReader) (w1 : World)
    (h : AudioFileReader_read lib env obj dest w = .returned (n, obj1) w1) :
    obj1 = obj
    ∨ ∃ t, obj.outputSampleType = some t
        ∧ (obj._resamplerOutputBuffer = .NULL
            ∨ env.swr_get_out_samples > obj._resamplerOutputBufferSampleCountPerChannel)
        ∧ obj1 = { obj with
            _resamplerOutputBuffer := if env.av_malloc = true then .live else .NULL
            _resamplerOutputBufferSampleCountPerChannel := env.swr_get_out_samples
            _resamplerOutputBufferSize :=
              lib.av_samples_get_buffer_size t.channelCount env.swr_get_out_samples
                (lib.AudioFileCommon_getAvSampleFormat t.sampleValueFormat) } := by
  revert h
  generalize ho : AudioFileReader_read lib env obj dest w = o
  revert o
  refine pred_intro _ ?_
  intro P hP
  obtain ⟨f1, ot, f3, idx, f5, f6, f7, pk, fr, cap, size, buf⟩ := obj
  cases ot <;>
  · unfold AudioFileReader_read
    dsimp only
    repeat' (refine ite_cases (fun _ => ?_) (fun _ => ?_))
    all_goals apply hP
    all_goals intro o ho h
    all_goals subst ho
    all_goals clear hP
    all_goals simp_all

/-- One read on a session whose null buffer still has capacity 0, with a non-negative upper bound: the capacity does not shrink, and the session stays of that kind when the allocation succeeds. -/
theorem read_capacity_step (lib : Lib) (env : ReadEnv) (obj : AudioFileReader) (dest : Int)
    (w : World) (n : Int) (obj1 : AudioFileReader) (w1 : World)
    (h : AudioFileReader_read lib env obj dest w = .returned (n, obj1) w1)
    (hinv : FreshBuffer obj) (hupper : 0 ≤ env.swr_get_out_samples) :
    obj._resamplerOutputBufferSampleCountPerChannel
        ≤ obj1._resamplerOutputBufferSampleCountPerChannel
    ∧ (env.av_malloc = true → FreshBuffer obj1) := by
  rcases read_returned_cases lib env obj dest w n obj1 w1 h with rfl | ⟨t, -, hg, rfl⟩
  · exact ⟨le_rfl, fun _ => hinv⟩
  · refine ⟨?_, fun hm => ?_⟩
    · rcases hg with hnull | hgt
      · have := hinv hnull
        simp only
        omega
      · simp only
        omega
    · intro hb
      simp [hm] at hb

/-- A run with one more call is the run followed by that call. -/
theorem runReads_snoc (lib : Lib) (calls : List (ReadEnv × Int)) (c : ReadEnv × Int)
    (s : AudioFileReader) (w : World) (s2 : AudioFileReader) (w2 : World)
    (h : runReads lib s w (calls ++ [c]) = some (s2, w2)) :
    ∃ s1 w1 n, runReads lib s w calls = some (s1, w1)
      ∧ AudioFileReader_read lib c.1 s1 c.2 w1 = .returned (n, s2) w2 := by
  induction calls generalizing s w with
  | nil =>
    obtain ⟨env, dest⟩ := c
    simp only [List.nil_append, runReads] at h
    split at h
    · rename_i n obj1 w1 heq
      simp only [runReads, Option.some.injEq, Prod.mk.injEq] at h
      obtain ⟨rfl, rfl⟩ := h
      exact ⟨s, w, n, rfl, heq⟩
    · exact absurd h (by simp)
    · exact absurd h (by simp)
  | cons x rest ih =>
    obtain ⟨env, dest⟩ := x
    simp only [List.cons_append, runReads] at h ⊢
    split at h
    · rename_i n obj1 w1 heq
      exact ih obj1 w1 h
    · exact absurd h (by simp)
    · exact absurd h (by simp)

/-- Runs without failed allocations and negative bounds keep `FreshBuffer`. -/
theorem runReads_freshBuffer (lib : Lib) (calls : List (ReadEnv × Int))
    (s : AudioFileReader) (w : World) (s1 : AudioFileReader) (w1 : World)
    (hcalls : ∀ x ∈ calls, 0 ≤ x.1.swr_get_out_samples ∧ x.1.av_malloc = true)
    (hinv : FreshBuffer s) (h : runReads lib s w calls = some (s1, w1)) :
    FreshBuffer s1 := by
  induction calls generalizing s w with
  | nil =>
    simp only [runReads, Option.some.injEq, Prod.mk.injEq] at h
    obtain ⟨rfl, -⟩ := h
    exact hinv
  | cons x rest ih =>
    obtain ⟨env, dest⟩ := x
    simp only [runReads] at h
    have hx := hcalls (env, dest) (List.mem_cons_self _ _)
    split at h
    · rename_i n obj1 w2 heq
      exact ih obj1 w2 (fun y hy => hcalls y (List.mem_cons_of_mem _ hy))
        ((read_capacity_step lib env s dest w n obj1 w2 heq hinv hx.1).2 hx.2) h
    · exact absurd h (by simp)
    · exact absurd h (by simp)

/-- A read that returns keeps `SizeMatchesCapacity`. -/
theorem read_sizeMatches (lib : Lib) (env : ReadEnv) (obj : AudioFileReader) (dest : Int)
    (w : World) (n : Int) (obj1 : AudioFileReader) (w1 : World)
    (h : AudioFileReader_read lib env obj dest w = .returned (n, obj1) w1)
    (hinv : SizeMatchesCapacity lib obj) : SizeMatchesCapacity lib obj1 := by
  rcases read_returned_cases lib env obj dest w n obj1 w1 h with rfl | ⟨t, ht, -, rfl⟩
  · exact hinv
  · obtain ⟨t1, ht1, hcc, -⟩ := hinv
    rw [ht] at ht1
    obtain rfl := Option.some.inj ht1
    exact ⟨t, ht, hcc, fun _ => rfl⟩

/-- Runs keep `SizeMatchesCapacity`. -/
theorem runReads_sizeMatches (lib : Lib) (calls : List (ReadEnv × Int))
    (s : AudioFileReader) (w : World) (s1 : AudioFileReader) (w1 : World)
    (hinv : SizeMatchesCapacity lib s) (h : runReads lib s w calls = some (s1, w1)) :
    SizeMatchesCapacity lib s1 := by
  induction calls generalizing s w with
  | nil =>
    simp only [runReads, Option.some.injEq, Prod.mk.injEq] at h
    obtain ⟨rfl, -⟩ := h
    exact hinv
  | cons x rest ih =>
    obtain ⟨env, dest⟩ := x
    simp only [runReads] at h
    split at h
    · rename_i n obj1 w2 heq
      exact ih obj1 w2 (read_sizeMatches lib env s dest w n obj1 w2 heq hinv) h
    · exact absurd h (by simp)
    · exact absurd h (by simp)

/-- One read on a session satisfying `SizeMatchesCapacity`: when the resampler respects the capacity it was given, the assertion holds and every copy fits the staging buffer. -/
theorem read_assert_step (lib : Lib) (env : ReadEnv) (obj : AudioFileReader) (dest : Int)
    (bytesPerSample : Int → Int) (hbps : ∀ fmt, 0 ≤ bytesPerSample fmt)
    (hsize : ∀ ch n fmt, lib.av_samples_get_buffer_size ch n fmt = ch * n * bytesPerSample fmt)
    (hinv : SizeMatchesCapacity lib obj)
    (hres : ∀ c, Call.swr_convert c
        ∈ (AudioFileReader_read lib env obj dest World.init).world.trace → env.swr_convert ≤ c) :
    (∀ w2, AudioFileReader_read lib env obj dest World.init ≠ .assertionFailed w2)
    ∧ (∀ k obj1 w2, AudioFileReader_read lib env obj dest World.init = .returned (k, obj1) w2 →
        ∀ n, Call.memcpy n ∈ w2.trace → n ≤ obj1._resamplerOutputBufferSize) := by
  revert hres
  generalize ho : AudioFileReader_read lib env obj dest World.init = o
  revert o
  refine pred_intro _ ?_
  intro P hP
  obtain ⟨f1, ot, f3, idx, f5, f6, f7, pk, fr, cap, size, buf⟩ := obj
  obtain ⟨t, ht, hcc, hsz⟩ := hinv
  simp only at ht hsz
  subst ht
  have hch : 0 ≤ t.channelCount := by omega
  cases buf <;>
  · unfold AudioFileReader_read
    dsimp only
    repeat' (refine ite_cases (fun _ => ?_) (fun _ => ?_))
    all_goals apply hP
    all_goals intro o ho hres
    all_goals subst ho
    all_goals clear hP
    all_goals simp only [copy_eq_min] at *
    all_goals first
      | (simp_all [Outcome.world, World.call, World.release, World.acquire, World.init]; done)
      | (exfalso
         rename_i hassert
         simp [Outcome.world, World.call, World.release, World.acquire, World.init]
           at hres hsz
         try subst hsz
         simp only [hsize] at hassert
         exact hassert (bytes_mono _ _ _ _ hch (hbps _) (by omega)))

/-- A read that reaches the copy step and is not stopped there returns
`min swr_convert dest`, and its only `memcpy` copies the bytes of that many samples per
channel. -/
theorem read_copy_step_of_returns (lib : Lib) (env : ReadEnv)
    (obj : AudioFileReader) (dest : Int) (t : AudioSampleType)
    (hobj : obj.Usable) (ht : obj.outputSampleType = some t)
    (hpull : 0 ≤ env.av_read_frame) (hstream : env.stream_index = obj._audioStreamIndex)
    (hsend : 0 ≤ env.avcodec_send_packet) (hrecv : 0 ≤ env.avcodec_receive_frame)
    (halloc : obj._resamplerOutputBuffer = .NULL
        ∨ env.swr_get_out_samples > obj._resamplerOutputBufferSampleCountPerChannel
      → env.av_malloc = true)
    (hconv : 0 ≤ env.swr_convert) (hdest : 0 ≤ dest)
    (hret : (AudioFileReader_read lib env obj dest World.init).value? ≠ none) :
    (∃ obj1 w1, AudioFileReader_read lib env obj dest World.init
        = .returned (min env.swr_convert dest, obj1) w1)
    ∧ min env.swr_convert dest ≤ dest
    ∧ (∀ n, Call.memcpy n ∈ (AudioFileReader_read lib env obj dest World.init).world.trace
        ↔ (0 < min env.swr_convert dest
            ∧ n = lib.av_samples_get_buffer_size t.channelCount (min env.swr_convert dest)
                (lib.AudioFileCommon_getAvSampleFormat t.sampleValueFormat))) := by
  revert hret
  generalize ho : AudioFileReader_read lib env obj dest World.init = o
  revert o
  refine pred_intro _ ?_
  intro P hP
  obtain ⟨f1, ot, f3, idx, f5, f6, f7, pk, fr, cap, size, buf⟩ := obj
  obtain ⟨hpk, hfr, -⟩ := hobj
  simp only at ht hpk hfr hstream halloc
  subst ht hpk hfr
  cases buf <;>
  · unfold AudioFileReader_read
    dsimp only
    repeat' (refine ite_cases (fun _ => ?_) (fun _ => ?_))
    all_goals apply hP
    all_goals intro o ho
    all_goals subst ho
    all_goals simp only [AVERROR_EAGAIN, AVERROR_EOF, copy_eq_min] at *
    all_goals first
      | omega
      | (exfalso; clear hP; simp_all; done)
      | (exfalso; clear hP; simp_all; omega)
      | (intro h; exact absurd rfl h)
      | (refine fun _ => ⟨⟨_, _, rfl⟩, by omega, fun n => ?_⟩
         simp [World.call, World.release, World.acquire, World.init, Outcome.world, *])

/-- A read on a session whose packet holder, frame holder and target format are set
does not dereference a null pointer. -/
theorem read_not_nullDereference (lib : Lib) (env : ReadEnv) (obj : AudioFileReader)
    (dest : Int) (w : World) (hobj : obj.Usable) :
    ∀ w1, AudioFileReader_read lib env obj dest w ≠ .nullDereference w1 := by
  generalize ho : AudioFileReader_read lib env obj dest w = o
  revert o
  refine pred_intro _ ?_
  intro P hP
  obtain ⟨f1, ot, f3, idx, f5, f6, f7, pk, fr, cap, size, buf⟩ := obj
  obtain ⟨hpk, hfr, hot⟩ := hobj
  simp only at hpk hfr hot
  subst hpk hfr
  cases ot with
  | none => exact absurd rfl hot
  | some t =>
    unfold AudioFileReader_read
    dsimp only
    repeat' (refine ite_cases (fun _ => ?_) (fun _ => ?_))
    all_goals apply hP
    all_goals intro o ho
    all_goals subst ho
    all_goals clear hP
    all_goals first
      | contradiction
      | (intro w1 h; cases h)

/-- A read that returns keeps the pointers it dereferences. -/
theorem read_usable (lib : Lib) (env : ReadEnv) (obj : AudioFileReader) (dest : Int)
    (w : World) (n : Int) (obj1 : AudioFileReader) (w1 : World)
    (h : AudioFileReader_read lib env obj dest w = .returned (n, obj1) w1)
    (hobj : obj.Usable) : obj1.Usable := by
  rcases read_returned_cases lib env obj dest w n obj1 w1 h with rfl | ⟨t, -, -, rfl⟩
  · exact hobj
  · exact hobj

/-- Runs keep the pointers read dereferences. -/
theorem runReads_usable (lib : Lib) (calls : List (ReadEnv × Int))
    (s : AudioFileReader) (w : World) (s1 : AudioFileReader) (w1 : World)
    (hobj : s.Usable) (h : runReads lib s w calls = some (s1, w1)) : s1.Usable := by
  induction calls generalizing s w with
  | nil =>
    simp only [runReads, Option.some.injEq, Prod.mk.injEq] at h
    obtain ⟨rfl, -⟩ := h
    exact hobj
  | cons x rest ih =>
    obtain ⟨env, dest⟩ := x
    simp only [runReads] at h
    split at h
    · rename_i n obj1 w2 heq
      exact ih obj1 w2 (read_usable lib env s dest w n obj1 w2 heq hobj) h
    · exact absurd h (by simp)
    · exact absurd h (by simp)

/-! ## The claims -/

/-- C2 (the code at the failing input). `AudioFileReader_close` guards only a null
`objPtr`: with a non-null `objPtr` whose handle is null it dereferences the null
handle at `obj->_resamplerOutputBuffer`. In particular the second of two closes on
the same handle-to-handle dereferences null, because the first close nulled the
handle. Only a null `objPtr` is a no-op. -/
theorem close_null_handle_dereferences_null (w : World) :
    AudioFileReader_close (some none) w = .nullDereference w
    ∧ AudioFileReader_close none w = .returned none w
    ∧ ∀ obj : AudioFileReader, ∃ w1,
        AudioFileReader_close (some (some obj)) w = .returned (some none) w1
        ∧ AudioFileReader_close (some none) w1 = .nullDereference w1 :=
  ⟨rfl, rfl, fun _ => ⟨_, rfl, rfl⟩⟩

/-- C6 (the code at failing inputs). A failed open returns NULL but leaves the decoder
context allocated: when the failure comes after `avcodec_alloc_context3` succeeded
(here at the channel-count check, and at `av_frame_alloc`), close calls
`avcodec_close`, which does not free the context, and nulls the field, so the ledger
still holds `audioDecoderContext` when open returns. Every other resource is
released, and a failure before the decoder context was allocated (here at
`avformat_find_stream_info`) leaves nothing behind. -/
theorem open_failure_leaves_decoder_context_allocated :
    (AudioFileReader_open exampleLib exampleOpenEnv .live (some exampleThreeChannels)
        World.init).value? = some none
    ∧ (AudioFileReader_open exampleLib exampleOpenEnv .live (some exampleThreeChannels)
        World.init).world.live = [.audioDecoderContext]
    ∧ (AudioFileReader_open exampleLib { exampleOpenEnv with av_frame_alloc := false } .live
        (some exampleStereo) World.init).value? = some none
    ∧ (AudioFileReader_open exampleLib { exampleOpenEnv with av_frame_alloc := false } .live
        (some exampleStereo) World.init).world.live = [.audioDecoderContext]
    ∧ (AudioFileReader_open exampleLib { exampleOpenEnv with avformat_find_stream_info := -1 }
        .live (some exampleStereo) World.init).value? = some none
    ∧ (AudioFileReader_open exampleLib { exampleOpenEnv with avformat_find_stream_info := -1 }
        .live (some exampleStereo) World.init).world.live = [] := by
  decide

/-- C3 (counterexample). With channel count 3 and a readable container, open runs
`avformat_alloc_context`, `avformat_open_input` and `avformat_find_stream_info` (and
opens the decoder) before it reports the wrong channel count and returns NULL. -/
theorem open_three_channels_runs_container_steps_first :
    (AudioFileReader_open exampleLib exampleOpenEnv .live (some exampleThreeChannels)
        World.init).value? = some none
    ∧ (AudioFileReader_open exampleLib exampleOpenEnv .live (some exampleThreeChannels)
        World.init).world.trace
      = [.MEMORY_ALLOC_STRUCT_AudioFileReader,
         .AudioFileCommon_getUtf8StringFromUnicodeString,
         .MEMORY_ALLOC_STRUCT_AudioSampleType,
         .avformat_alloc_context, .avformat_open_input, .avformat_find_stream_info,
         .avcodec_find_decoder 1, .avcodec_alloc_context3, .avcodec_parameters_to_context,
         .avcodec_open2, .MSG_ERROR .wrongOutputChannelCount,
         .avcodec_close, .avformat_close_input, .Memory_free_outputSampleType,
         .Memory_free_filenameUtf8, .Memory_free_obj] := by
  decide

set_option maxHeartbeats 4000000 in
/-- C3 (amended). For every target format whose channel count is not 1 or 2, open
returns NULL. The channel count is checked after the container and decoder steps:
open reports the wrong channel count exactly when every earlier step succeeded, and
then `avformat_alloc_context`, `avformat_open_input`, `avformat_find_stream_info` and
`avcodec_open2` were executed before the report. -/
theorem open_rejects_channel_count_after_container_steps (lib : Lib) (env : OpenEnv)
    (filename : Ptr) (ost : AudioSampleType)
    (hcc : ¬ (ost.channelCount = 1 ∨ ost.channelCount = 2)) :
    (AudioFileReader_open lib env filename (some ost) World.init).value? = some none
    ∧ (Call.MSG_ERROR .wrongOutputChannelCount
          ∈ (AudioFileReader_open lib env filename (some ost) World.init).world.trace
        ↔ (filename ≠ .NULL ∧ env.alloc_AudioFileReader = true
            ∧ env.getUtf8StringFromUnicodeString = true ∧ env.alloc_AudioSampleType = true
            ∧ env.avformat_alloc_context = true ∧ 0 ≤ env.avformat_open_input
            ∧ 0 ≤ env.avformat_find_stream_info
            ∧ AudioFileReader_open.scan env.streams 0 ≠ env.streams.length
            ∧ env.avcodec_find_decoder = true ∧ env.avcodec_alloc_context3 = true
            ∧ 0 ≤ env.avcodec_parameters_to_context ∧ 0 ≤ env.avcodec_open2))
    ∧ (Call.MSG_ERROR .wrongOutputChannelCount
          ∈ (AudioFileReader_open lib env filename (some ost) World.init).world.trace
        → executedBefore .avformat_alloc_context (.MSG_ERROR .wrongOutputChannelCount)
            (AudioFileReader_open lib env filename (some ost) World.init).world.trace
          ∧ executedBefore .avformat_open_input (.MSG_ERROR .wrongOutputChannelCount)
            (AudioFileReader_open lib env filename (some ost) World.init).world.trace
          ∧ executedBefore .avformat_find_stream_info (.MSG_ERROR .wrongOutputChannelCount)
            (AudioFileReader_open lib env filename (some ost) World.init).world.trace
          ∧ executedBefore .avcodec_open2 (.MSG_ERROR .wrongOutputChannelCount)
            (AudioFileReader_open lib env filename (some ost) World.init).world.trace) := by
  suffices h : ∀ P : Outcome (Option AudioFileReader) → Prop,
      (∀ o, (o.value? = some none
        ∧ (Call.MSG_ERROR .wrongOutputChannelCount ∈ o.world.trace
          ↔ (filename ≠ .NULL ∧ env.alloc_AudioFileReader = true
            ∧ env.getUtf8StringFromUnicodeString = true ∧ env.alloc_AudioSampleType = true
            ∧ env.avformat_alloc_context = true ∧ 0 ≤ env.avformat_open_input
            ∧ 0 ≤ env.avformat_find_stream_info
            ∧ AudioFileReader_open.scan env.streams 0 ≠ env.streams.length
            ∧ env.avcodec_find_decoder = true ∧ env.avcodec_alloc_context3 = true
            ∧ 0 ≤ env.avcodec_parameters_to_context ∧ 0 ≤ env.avcodec_open2))
        ∧ (Call.MSG_ERROR .wrongOutputChannelCount ∈ o.world.trace
          → executedBefore .avformat_alloc_context (.MSG_ERROR .wrongOutputChannelCount)
              o.world.trace
            ∧ executedBefore .avformat_open_input (.MSG_ERROR .wrongOutputChannelCount)
              o.world.trace
            ∧ executedBefore .avformat_find_stream_info (.MSG_ERROR .wrongOutputChannelCount)
              o.world.trace
            ∧ executedBefore .avcodec_open2 (.MSG_ERROR .wrongOutputChannelCount)
              o.world.trace)) → P o) →
      P (AudioFileReader_open lib env filename (some ost) World.init) from
    h _ (fun _ ho => ho)
  intro P hP
  unfold AudioFileReader_open
  dsimp only [AudioFileReader.zeroed]
  repeat' (refine ite_cases (fun _ => ?_) (fun _ => ?_))
  all_goals apply hP
  all_goals first
    | contradiction
    | (simp_all [err_eq, AudioFileReader_close.releaseAll, World.call, World.acquire,
        World.release, World.init, Outcome.world, Outcome.value?, executedBefore])

set_option maxHeartbeats 4000000 in
/-- C7. When the container opens and its stream info is available, open reports
"audio stream not found" exactly when no stream of the container is audio (also for
an empty container); otherwise the stream it goes on with (the one whose codec it
looks up, and whose index a returned session records in `_audioStreamIndex`) is the
audio stream of smallest index: every stream below it is not audio. -/
theorem open_selects_first_audio_stream (lib : Lib) (env : OpenEnv) (ost : AudioSampleType)
    (h1 : env.alloc_AudioFileReader = true) (h2 : env.getUtf8StringFromUnicodeString = true)
    (h3 : env.alloc_AudioSampleType = true) (h4 : env.avformat_alloc_context = true)
    (h5 : 0 ≤ env.avformat_open_input) (h6 : 0 ≤ env.avformat_find_stream_info) :
    (Call.MSG_ERROR .audioStreamNotFound
        ∈ (AudioFileReader_open lib env .live (some ost) World.init).world.trace
      ↔ ∀ t ∈ env.streams, t ≠ AVMediaType.AVMEDIA_TYPE_AUDIO)
    ∧ (∀ k : Nat, Call.avcodec_find_decoder k
          ∈ (AudioFileReader_open lib env .live (some ost) World.init).world.trace
        ↔ (k < env.streams.length ∧ env.streams[k]? = some AVMediaType.AVMEDIA_TYPE_AUDIO
            ∧ ∀ j, j < k → env.streams[j]? ≠ some AVMediaType.AVMEDIA_TYPE_AUDIO))
    ∧ (∀ obj w1, AudioFileReader_open lib env .live (some ost) World.init
          = .returned (some obj) w1 →
        ∃ k : Nat, obj._audioStreamIndex = (k : Int) ∧ k < env.streams.length
          ∧ env.streams[k]? = some AVMediaType.AVMEDIA_TYPE_AUDIO
          ∧ ∀ j, j < k → env.streams[j]? ≠ some AVMediaType.AVMEDIA_TYPE_AUDIO) := by
  simp only [← scan_eq_length_iff, first_audio_iff]
  suffices h : ∀ P : Outcome (Option AudioFileReader) → Prop,
      (∀ o, ((Call.MSG_ERROR .audioStreamNotFound ∈ o.world.trace
          ↔ AudioFileReader_open.scan env.streams 0 = env.streams.length)
        ∧ (∀ k : Nat, Call.avcodec_find_decoder k ∈ o.world.trace
          ↔ (k = AudioFileReader_open.scan env.streams 0
              ∧ AudioFileReader_open.scan env.streams 0 ≠ env.streams.length))
        ∧ (∀ obj w1, o = .returned (some obj) w1 →
          ∃ k : Nat, obj._audioStreamIndex = (k : Int)
            ∧ k = AudioFileReader_open.scan env.streams 0
            ∧ AudioFileReader_open.scan env.streams 0 ≠ env.streams.length)) → P o) →
      P (AudioFileReader_open lib env .live (some ost) World.init) from
    h _ (fun _ ho => ho)
  intro P hP
  unfold AudioFileReader_open
  dsimp only [AudioFileReader.zeroed]
  repeat' (refine ite_cases (fun _ => ?_) (fun _ => ?_))
  all_goals apply hP
  all_goals first
    | contradiction
    | omega
    | (simp_all [err_eq, AudioFileReader_close.releaseAll, World.call, World.acquire,
        World.release, World.init, Outcome.world, Outcome.value?])

/-- C7, witness: a container with a video stream followed by an audio stream. -/
theorem open_selects_first_audio_stream_witness :
    (Call.MSG_ERROR .audioStreamNotFound
        ∈ (AudioFileReader_open exampleLib exampleOpenEnv .live (some exampleStereo)
            World.init).world.trace
      ↔ ∀ t ∈ exampleOpenEnv.streams, t ≠ AVMediaType.AVMEDIA_TYPE_AUDIO)
    ∧ (∀ k : Nat, Call.avcodec_find_decoder k
          ∈ (AudioFileReader_open exampleLib exampleOpenEnv .live (some exampleStereo)
              World.init).world.trace
        ↔ (k < exampleOpenEnv.streams.length
            ∧ exampleOpenEnv.streams[k]? = some AVMediaType.AVMEDIA_TYPE_AUDIO
            ∧ ∀ j, j < k → exampleOpenEnv.streams[j]? ≠ some AVMediaType.AVMEDIA_TYPE_AUDIO))
    ∧ (∀ obj w1, AudioFileReader_open exampleLib exampleOpenEnv .live (some exampleStereo)
          World.init = .returned (some obj) w1 →
        ∃ k : Nat, obj._audioStreamIndex = (k : Int) ∧ k < exampleOpenEnv.streams.length
          ∧ exampleOpenEnv.streams[k]? = some AVMediaType.AVMEDIA_TYPE_AUDIO
          ∧ ∀ j, j < k → exampleOpenEnv.streams[j]? ≠ some AVMediaType.AVMEDIA_TYPE_AUDIO) :=
  open_selects_first_audio_stream exampleLib exampleOpenEnv exampleStereo
    (by decide) (by decide) (by decide) (by decide) (by decide) (by decide)

/-- C3 (amended), witness: channel count 3. -/
theorem open_rejects_channel_count_after_container_steps_witness :
    ¬ (exampleThreeChannels.channelCount = 1 ∨ exampleThreeChannels.channelCount = 2)
    ∧ (AudioFileReader_open exampleLib exampleOpenEnv .live (some exampleThreeChannels)
        World.init).value? = some none :=
  ⟨by decide,
   (open_rejects_channel_count_after_container_steps exampleLib exampleOpenEnv .live
      exampleThreeChannels (by decide)).1⟩

/-- C1. On every session reached from a successful open by read calls, for every
call of read that reaches the copy step (a packet of the selected stream was pulled,
it was decoded, the staging buffer is available and the conversion produced
`swr_convert >= 0` samples per channel, at most the output capacity the resampler
was given, a block of `n` samples per channel taking
`channelCount * n * bytesPerSample` bytes) and for every destination capacity
`dest >= 0`: the call returns `min swr_convert dest`, which is at most `dest`; the
only `memcpy` of the call copies the bytes of exactly that many samples per channel,
and there is no `memcpy` at all when the count is 0. -/
theorem read_copies_min_of_produced_and_capacity (lib : Lib) (env0 : OpenEnv)
    (filename : Ptr) (ost : Option AudioSampleType) (w : World)
    (s0 : AudioFileReader) (w0 : World)
    (hopen : AudioFileReader_open lib env0 filename ost w = .returned (some s0) w0)
    (calls : List (ReadEnv × Int)) (s : AudioFileReader) (w1 : World)
    (hrun : runReads lib s0 w0 calls = some (s, w1))
    (bytesPerSample : Int → Int) (hbps : ∀ fmt, 0 ≤ bytesPerSample fmt)
    (hsize : ∀ ch n fmt, lib.av_samples_get_buffer_size ch n fmt = ch * n * bytesPerSample fmt)
    (env : ReadEnv) (dest : Int)
    (hres : ∀ c, Call.swr_convert c
        ∈ (AudioFileReader_read lib env s dest World.init).world.trace → env.swr_convert ≤ c)
    (hpull : 0 ≤ env.av_read_frame) (hstream : env.stream_index = s._audioStreamIndex)
    (hsend : 0 ≤ env.avcodec_send_packet) (hrecv : 0 ≤ env.avcodec_receive_frame)
    (halloc : s._resamplerOutputBuffer = .NULL
        ∨ env.swr_get_out_samples > s._resamplerOutputBufferSampleCountPerChannel
      → env.av_malloc = true)
    (hconv : 0 ≤ env.swr_convert) (hdest : 0 ≤ dest) :
    (∃ s1 w2, AudioFileReader_read lib env s dest World.init
        = .returned (min env.swr_convert dest, s1) w2)
    ∧ min env.swr_convert dest ≤ dest
    ∧ ∃ t, s.outputSampleType = some t
      ∧ (∀ n, Call.memcpy n ∈ (AudioFileReader_read lib env s dest World.init).world.trace
        ↔ (0 < min env.swr_convert dest
            ∧ n = lib.av_samples_get_buffer_size t.channelCount (min env.swr_convert dest)
                (lib.AudioFileCommon_getAvSampleFormat t.sampleValueFormat))) := by
  obtain ⟨hU0, hnull, -, t0, ht0, hcc⟩ := open_session lib env0 filename ost w s0 w0 hopen
  have hU : s.Usable := runReads_usable lib calls s0 w0 s w1 hU0 hrun
  have hinv : SizeMatchesCapacity lib s :=
    runReads_sizeMatches lib calls s0 w0 s w1 ⟨t0, ht0, hcc, fun hb => absurd hnull hb⟩ hrun
  have hna := (read_assert_step lib env s dest bytesPerSample hbps hsize hinv hres).1
  have hnn := read_not_nullDereference lib env s dest World.init hU
  have hret : (AudioFileReader_read lib env s dest World.init).value? ≠ none := by
    cases h : AudioFileReader_read lib env s dest World.init with
    | returned v w2 => simp [Outcome.value?]
    | nullDereference w2 => exact absurd h (hnn w2)
    | assertionFailed w2 => exact absurd h (hna w2)
  obtain ⟨t, ht, -, -⟩ := hinv
  obtain ⟨h1, h2, h3⟩ := read_copy_step_of_returns lib env s dest t hU ht hpull hstream
    hsend hrecv halloc hconv hdest hret
  exact ⟨h1, h2, t, ht, h3⟩

/-- C1, witness: the first read on the example session; 1000 samples per channel are
produced into a staging buffer of 1024, the destination capacity is 512. -/
theorem read_copies_min_of_produced_and_capacity_witness :
    (∃ s1 w2, AudioFileReader_read exampleLib exampleRead exampleSession 512 World.init
        = .returned (min exampleRead.swr_convert 512, s1) w2)
    ∧ min exampleRead.swr_convert 512 ≤ 512
    ∧ ∃ t, exampleSession.outputSampleType = some t
      ∧ (∀ n, Call.memcpy n
          ∈ (AudioFileReader_read exampleLib exampleRead exampleSession 512
              World.init).world.trace
        ↔ (0 < min exampleRead.swr_convert 512
            ∧ n = exampleLib.av_samples_get_buffer_size t.channelCount
                (min exampleRead.swr_convert 512)
                (exampleLib.AudioFileCommon_getAvSampleFormat t.sampleValueFormat))) := by
  have htrace : (AudioFileReader_read exampleLib exampleRead exampleSession 512
      World.init).world.trace
      = [.av_read_frame, .avcodec_send_packet, .avcodec_receive_frame,
         .AudioFileCommon_getAvSampleFormat, .swr_get_out_samples,
         .av_samples_get_buffer_size 1024, .av_malloc 4096, .swr_convert 1024,
         .av_samples_get_buffer_size 512, .memcpy 2048, .av_packet_unref] := by
    decide
  exact read_copies_min_of_produced_and_capacity exampleLib exampleOpenEnv .live
    (some exampleStereo) World.init exampleSession exampleOpenWorld (by decide) []
    exampleSession exampleOpenWorld rfl (fun _ => 2) (fun _ => by norm_num)
    (fun _ _ _ => rfl) exampleRead 512
    (fun c hc => by
      rw [htrace] at hc
      simp at hc
      subst hc
      decide)
    (by decide) (by decide) (by decide) (by decide) (fun _ => rfl) (by decide) (by decide)

/-- C4 (counterexample). At the end of the container (`av_read_frame` reports
`AVERROR_EOF`) read returns -1, the very value it returns on a packet-submit error, a
frame-receive error, a staging-buffer allocation failure and a resample error. -/
theorem read_end_of_stream_value_equals_error_value :
    (AudioFileReader_read exampleLib { exampleRead with av_read_frame := AVERROR_EOF }
        exampleSession 512 World.init).value?.map Prod.fst = some (-1)
    ∧ (AudioFileReader_read exampleLib { exampleRead with avcodec_send_packet := -1 }
        exampleSession 512 World.init).value?.map Prod.fst = some (-1)
    ∧ (AudioFileReader_read exampleLib { exampleRead with avcodec_receive_frame := -1 }
        exampleSession 512 World.init).value?.map Prod.fst = some (-1)
    ∧ (AudioFileReader_read exampleLib { exampleRead with av_malloc := false }
        exampleSession 512 World.init).value?.map Prod.fst = some (-1)
    ∧ (AudioFileReader_read exampleLib { exampleRead with swr_convert := -1 }
        exampleSession 512 World.init).value?.map Prod.fst = some (-1) := by
  decide

/-- C4 (amended). read returns -1 when `av_read_frame` reports a negative value (the
container has no more packets, or reading failed), and it returns the same -1 on a
packet-submit error, on a frame-receive error, on a staging-buffer allocation failure
and on a resample error: the value returned does not tell end of stream from
failure. -/
theorem read_returns_minus_one_at_end_of_stream_and_on_errors (lib : Lib) (env : ReadEnv)
    (obj : AudioFileReader) (dest : Int) (w : World) (hobj : obj.Usable) :
    (env.av_read_frame < 0 →
      (AudioFileReader_read lib env obj dest w).value?.map Prod.fst = some (-1))
    ∧ (0 ≤ env.av_read_frame → env.stream_index = obj._audioStreamIndex →
        env.avcodec_send_packet < 0 →
      (AudioFileReader_read lib env obj dest w).value?.map Prod.fst = some (-1))
    ∧ (0 ≤ env.av_read_frame → env.stream_index = obj._audioStreamIndex →
        0 ≤ env.avcodec_send_packet → env.avcodec_receive_frame < 0 →
        env.avcodec_receive_frame ≠ AVERROR_EAGAIN → env.avcodec_receive_frame ≠ AVERROR_EOF →
      (AudioFileReader_read lib env obj dest w).value?.map Prod.fst = some (-1))
    ∧ (0 ≤ env.av_read_frame → env.stream_index = obj._audioStreamIndex →
        0 ≤ env.avcodec_send_packet → 0 ≤ env.avcodec_receive_frame →
        (obj._resamplerOutputBuffer = .NULL
          ∨ env.swr_get_out_samples > obj._resamplerOutputBufferSampleCountPerChannel) →
        env.av_malloc = false →
      (AudioFileReader_read lib env obj dest w).value?.map Prod.fst = some (-1))
    ∧ (0 ≤ env.av_read_frame → env.stream_index = obj._audioStreamIndex →
        0 ≤ env.avcodec_send_packet → 0 ≤ env.avcodec_receive_frame →
        (obj._resamplerOutputBuffer = .NULL
          ∨ env.swr_get_out_samples > obj._resamplerOutputBufferSampleCountPerChannel
          → env.av_malloc = true) →
        env.swr_convert < 0 →
      (AudioFileReader_read lib env obj dest w).value?.map Prod.fst = some (-1)) := by
  generalize ho : AudioFileReader_read lib env obj dest w = o
  revert o
  refine pred_intro _ ?_
  intro P hP
  obtain ⟨f1, ot, f3, idx, f5, f6, f7, pk, fr, cap, size, buf⟩ := obj
  obtain ⟨hpk, hfr, hot⟩ := hobj
  simp only at hpk hfr hot
  subst hpk hfr
  cases ot with
  | none => exact absurd rfl hot
  | some t =>
    cases buf <;>
    · unfold AudioFileReader_read
      dsimp only
      repeat' (refine ite_cases (fun _ => ?_) (fun _ => ?_))
      all_goals apply hP
      all_goals intro o ho
      all_goals subst ho
      all_goals simp only [AVERROR_EAGAIN, AVERROR_EOF, copy_eq_min] at *
      all_goals clear hP
      all_goals first
        | omega
        | simp_all [Outcome.value?]

/-- C4 (amended), witness: the example session. -/
theorem read_returns_minus_one_at_end_of_stream_and_on_errors_witness :
    exampleSession.Usable
    ∧ (AudioFileReader_read exampleLib { exampleRead with av_read_frame := AVERROR_EOF }
        exampleSession 512 World.init).value?.map Prod.fst = some (-1) :=
  ⟨by decide,
   (read_returns_minus_one_at_end_of_stream_and_on_errors exampleLib
      { exampleRead with av_read_frame := AVERROR_EOF } exampleSession 512 World.init
      (by decide)).1 (by decide)⟩

/-- C8 (counterexample). A packet of the selected stream was submitted successfully
and `avcodec_receive_frame` reports `AVERROR_EOF`, a negative result other than
`AVERROR(EAGAIN)`: read returns 0, not the error value. -/
theorem read_receive_eof_returns_zero :
    AVERROR_EOF < 0 ∧ AVERROR_EOF ≠ AVERROR_EAGAIN
    ∧ (AudioFileReader_read exampleLib { exampleRead with avcodec_receive_frame := AVERROR_EOF }
        exampleSession 512 World.init).value?.map Prod.fst = some 0 := by
  decide

/-- C8 (amended). After a packet of the selected stream was submitted successfully, a
negative result of the receive step makes read return 0 exactly when it is
`AVERROR(EAGAIN)` or `AVERROR_EOF` (no frame available, no decoding error); for every
other negative receive result read returns -1. -/
theorem read_receive_step_zero_iff_eagain_or_eof (lib : Lib) (env : ReadEnv)
    (obj : AudioFileReader) (dest : Int) (w : World) (hobj : obj.Usable)
    (hpull : 0 ≤ env.av_read_frame) (hstream : env.stream_index = obj._audioStreamIndex)
    (hsend : 0 ≤ env.avcodec_send_packet) (hneg : env.avcodec_receive_frame < 0) :
    ((AudioFileReader_read lib env obj dest w).value?.map Prod.fst = some 0
      ↔ (env.avcodec_receive_frame = AVERROR_EAGAIN ∨ env.avcodec_receive_frame = AVERROR_EOF))
    ∧ (¬ (env.avcodec_receive_frame = AVERROR_EAGAIN ∨ env.avcodec_receive_frame = AVERROR_EOF)
      → (AudioFileReader_read lib env obj dest w).value?.map Prod.fst = some (-1)) := by
  generalize ho : AudioFileReader_read lib env obj dest w = o
  revert o
  refine pred_intro _ ?_
  intro P hP
  obtain ⟨f1, ot, f3, idx, f5, f6, f7, pk, fr, cap, size, buf⟩ := obj
  obtain ⟨hpk, hfr, hot⟩ := hobj
  simp only at hpk hfr hot hstream
  subst hpk hfr
  cases ot with
  | none => exact absurd rfl hot
  | some t =>
    unfold AudioFileReader_read
    dsimp only
    repeat' (refine ite_cases (fun _ => ?_) (fun _ => ?_))
    all_goals apply hP
    all_goals intro o ho
    all_goals subst ho
    all_goals clear hP
    all_goals first
      | omega
      | contradiction
      | simp_all [Outcome.value?]

/-- C8 (amended), witness: the receive step reports `AVERROR(EAGAIN)`. -/
theorem read_receive_step_zero_iff_eagain_or_eof_witness :
    exampleSession.Usable
    ∧ (0 : Int) ≤ exampleRead.av_read_frame
    ∧ exampleRead.stream_index = exampleSession._audioStreamIndex
    ∧ (0 : Int) ≤ exampleRead.avcodec_send_packet
    ∧ AVERROR_EAGAIN < 0
    ∧ (AudioFileReader_read exampleLib
        { exampleRead with avcodec_receive_frame := AVERROR_EAGAIN }
        exampleSession 512 World.init).value?.map Prod.fst = some 0 :=
  ⟨by decide, by decide, by decide, by decide, by decide,
   (read_receive_step_zero_iff_eagain_or_eof exampleLib
      { exampleRead with avcodec_receive_frame := AVERROR_EAGAIN } exampleSession 512
      World.init (by decide) (by decide) (by decide) (by decide) (by decide)).1.2
      (Or.inl rfl)⟩

/-- C9 (the code at failing inputs). A packet was pulled (`av_read_frame` returned 0),
and read returns without `av_packet_unref` when the packet belongs to another stream,
on a submit error, when no frame is available, on a receive error, on an allocation
failure and on a resample error; only the path through the copy step calls
`av_packet_unref`. -/
theorem read_early_returns_skip_packet_unref :
    Call.av_packet_unref ∉ (AudioFileReader_read exampleLib
        { exampleRead with stream_index := 0 } exampleSession 512 World.init).world.trace
    ∧ Call.av_packet_unref ∉ (AudioFileReader_read exampleLib
        { exampleRead with avcodec_send_packet := -1 } exampleSession 512 World.init).world.trace
    ∧ Call.av_packet_unref ∉ (AudioFileReader_read exampleLib
        { exampleRead with avcodec_receive_frame := AVERROR_EAGAIN }
        exampleSession 512 World.init).world.trace
    ∧ Call.av_packet_unref ∉ (AudioFileReader_read exampleLib
        { exampleRead with avcodec_receive_frame := -1 } exampleSession 512 World.init).world.trace
    ∧ Call.av_packet_unref ∉ (AudioFileReader_read exampleLib
        { exampleRead with av_malloc := false } exampleSession 512 World.init).world.trace
    ∧ Call.av_packet_unref ∉ (AudioFileReader_read exampleLib
        { exampleRead with swr_convert := -1 } exampleSession 512 World.init).world.trace
    ∧ Call.av_packet_unref ∈ (AudioFileReader_read exampleLib exampleRead
        exampleSession 512 World.init).world.trace
    ∧ AudioFileReader_read exampleLib { exampleRead with stream_index := 0 } exampleSession
        512 World.init = .returned (0, exampleSession) ⟨[.av_read_frame], []⟩ := by
  decide

/-- C5 (counterexample). After a successful open the capacity is 0. A read whose
allocation fails leaves the capacity at its upper bound 2048 with a null buffer; the
next read, finding the buffer null, sets the capacity to its own upper bound 1024:
the capacity shrank from 2048 to 1024. Likewise a first read in which
`swr_get_out_samples` reports -22 lowers the capacity from 0 to -22. -/
theorem capacity_shrinks_after_failed_allocation :
    AudioFileReader_open exampleLib exampleOpenEnv .live (some exampleStereo) World.init
      = .returned (some exampleSession) exampleOpenWorld
    ∧ exampleSession._resamplerOutputBufferSampleCountPerChannel = 0
    ∧ (runReads exampleLib exampleSession exampleOpenWorld
        [(exampleReadAllocFails, 512)]).map
          (fun p => p.1._resamplerOutputBufferSampleCountPerChannel) = some 2048
    ∧ (runReads exampleLib exampleSession exampleOpenWorld
        [(exampleReadAllocFails, 512), (exampleRead, 512)]).map
          (fun p => p.1._resamplerOutputBufferSampleCountPerChannel) = some 1024
    ∧ (runReads exampleLib exampleSession exampleOpenWorld
        [(exampleReadNegativeBound, 512)]).map
          (fun p => p.1._resamplerOutputBufferSampleCountPerChannel) = some (-22) := by
  decide

/-- C5 (amended). The capacity is 0 after open, and over every sequence of read calls
on the session in which no earlier call met a failed staging-buffer allocation and
`swr_get_out_samples` never reported a negative bound, the capacity after each call
is greater than or equal to its value before the call. -/
theorem capacity_never_shrinks_while_allocations_succeed (lib : Lib) (env0 : OpenEnv)
    (filename : Ptr) (ost : Option AudioSampleType) (w : World)
    (s0 : AudioFileReader) (w0 : World)
    (hopen : AudioFileReader_open lib env0 filename ost w = .returned (some s0) w0)
    (calls : List (ReadEnv × Int)) (c : ReadEnv × Int)
    (hcalls : ∀ x ∈ calls, 0 ≤ x.1.swr_get_out_samples ∧ x.1.av_malloc = true)
    (hc : 0 ≤ c.1.swr_get_out_samples)
    (s : AudioFileReader) (w1 : World) (s1 : AudioFileReader) (w2 : World)
    (hbefore : runReads lib s0 w0 calls = some (s, w1))
    (hafter : runReads lib s0 w0 (calls ++ [c]) = some (s1, w2)) :
    s0._resamplerOutputBufferSampleCountPerChannel = 0
    ∧ s._resamplerOutputBufferSampleCountPerChannel
        ≤ s1._resamplerOutputBufferSampleCountPerChannel := by
  obtain ⟨-, -, hcap0, -⟩ := open_session lib env0 filename ost w s0 w0 hopen
  refine ⟨hcap0, ?_⟩
  obtain ⟨s', w', n, hrun, hread⟩ := runReads_snoc lib calls c s0 w0 s1 w2 hafter
  rw [hbefore] at hrun
  simp only [Option.some.injEq, Prod.mk.injEq] at hrun
  obtain ⟨rfl, rfl⟩ := hrun
  have hfresh : FreshBuffer s :=
    runReads_freshBuffer lib calls s0 w0 s w1 hcalls (fun _ => hcap0) hbefore
  exact (read_capacity_step lib c.1 s c.2 w1 n s1 w2 hread hfresh hc).1

/-- C5 (amended), witness: a read that allocates 1024 samples per channel, then a read
that grows the buffer to 2048. -/
theorem capacity_never_shrinks_while_allocations_succeed_witness :
    exampleSession._resamplerOutputBufferSampleCountPerChannel = 0
    ∧ exampleSessionAfterRead._resamplerOutputBufferSampleCountPerChannel
        ≤ ({ exampleSessionAfterRead with
              _resamplerOutputBufferSampleCountPerChannel := 2048
              _resamplerOutputBufferSize := 8192 } :
            AudioFileReader)._resamplerOutputBufferSampleCountPerChannel :=
  capacity_never_shrinks_while_allocations_succeed exampleLib exampleOpenEnv .live
    (some exampleStereo) World.init exampleSession exampleOpenWorld (by decide)
    [(exampleRead, 512)] ({ exampleRead with swr_get_out_samples := 2048 }, 512)
    (by decide) (by decide)
    exampleSessionAfterRead exampleWorldAfterRead _
    (AudioFileReader_read exampleLib { exampleRead with swr_get_out_samples := 2048 }
      exampleSessionAfterRead 512 exampleWorldAfterRead).world
    (by decide) (by decide)

/-- C10. On every session reached from a successful open by read calls, if a block of
`n` samples per channel takes `channelCount * n * bytesPerSample` bytes and the
resampler returns at most the output capacity it was given, the assertion of the copy
step never fails and every `memcpy` of the call copies at most
`_resamplerOutputBufferSize` bytes. The invariant behind it: whenever the staging
buffer is non-null, its recorded byte size is the byte size of its recorded
capacity. -/
theorem read_copy_assertion_holds (lib : Lib) (env0 : OpenEnv)
    (filename : Ptr) (ost : Option AudioSampleType) (w : World)
    (s0 : AudioFileReader) (w0 : World)
    (hopen : AudioFileReader_open lib env0 filename ost w = .returned (some s0) w0)
    (calls : List (ReadEnv × Int)) (s : AudioFileReader) (w1 : World)
    (hrun : runReads lib s0 w0 calls = some (s, w1))
    (bytesPerSample : Int → Int) (hbps : ∀ fmt, 0 ≤ bytesPerSample fmt)
    (hsize : ∀ ch n fmt, lib.av_samples_get_buffer_size ch n fmt = ch * n * bytesPerSample fmt)
    (env : ReadEnv) (dest : Int)
    (hres : ∀ c, Call.swr_convert c
        ∈ (AudioFileReader_read lib env s dest World.init).world.trace → env.swr_convert ≤ c) :
    (∀ w2, AudioFileReader_read lib env s dest World.init ≠ .assertionFailed w2)
    ∧ (∀ k s1 w2, AudioFileReader_read lib env s dest World.init = .returned (k, s1) w2 →
        ∀ n, Call.memcpy n ∈ w2.trace → n ≤ s1._resamplerOutputBufferSize)
    ∧ (s._resamplerOutputBuffer ≠ .NULL →
        ∃ t, s.outputSampleType = some t
          ∧ s._resamplerOutputBufferSize
            = lib.av_samples_get_buffer_size t.channelCount
                s._resamplerOutputBufferSampleCountPerChannel
                (lib.AudioFileCommon_getAvSampleFormat t.sampleValueFormat)) := by
  obtain ⟨-, hnull, -, t, ht, hcc⟩ := open_session lib env0 filename ost w s0 w0 hopen
  have hinv0 : SizeMatchesCapacity lib s0 := ⟨t, ht, hcc, fun hb => absurd hnull hb⟩
  have hinv : SizeMatchesCapacity lib s := runReads_sizeMatches lib calls s0 w0 s w1 hinv0 hrun
  obtain ⟨h1, h2⟩ := read_assert_step lib env s dest bytesPerSample hbps hsize hinv hres
  refine ⟨h1, h2, fun hb => ?_⟩
  obtain ⟨t1, ht1, -, hsz⟩ := hinv
  exact ⟨t1, ht1, hsz hb⟩

/-- C10, witness: after one read the staging buffer holds 1024 samples per channel; a
second read converts 1000 samples and copies 512 of them. -/
theorem read_copy_assertion_holds_witness :
    (∀ w2, AudioFileReader_read exampleLib { exampleRead with swr_get_out_samples := 800 }
        exampleSessionAfterRead 512 World.init ≠ .assertionFailed w2)
    ∧ (∀ k s1 w2, AudioFileReader_read exampleLib { exampleRead with swr_get_out_samples := 800 }
          exampleSessionAfterRead 512 World.init = .returned (k, s1) w2 →
        ∀ n, Call.memcpy n ∈ w2.trace → n ≤ s1._resamplerOutputBufferSize)
    ∧ (exampleSessionAfterRead._resamplerOutputBuffer ≠ .NULL →
        ∃ t, exampleSessionAfterRead.outputSampleType = some t
          ∧ exampleSessionAfterRead._resamplerOutputBufferSize
            = exampleLib.av_samples_get_buffer_size t.channelCount
                exampleSessionAfterRead._resamplerOutputBufferSampleCountPerChannel
                (exampleLib.AudioFileCommon_getAvSampleFormat t.sampleValueFormat)) := by
  have htrace : (AudioFileReader_read exampleLib { exampleRead with swr_get_out_samples := 800 }
      exampleSessionAfterRead 512 World.init).world.trace
      = [.av_read_frame, .avcodec_send_packet, .avcodec_receive_frame,
         .AudioFileCommon_getAvSampleFormat, .swr_get_out_samples, .swr_convert 1024,
         .av_samples_get_buffer_size 512, .memcpy 2048, .av_packet_unref] := by
    decide
  exact read_copy_assertion_holds exampleLib exampleOpenEnv .live (some exampleStereo)
    World.init exampleSession exampleOpenWorld (by decide) [(exampleRead, 512)]
    exampleSessionAfterRead exampleWorldAfterRead (by decide) (fun _ => 2)
    (fun _ => by norm_num) (fun _ _ _ => rfl)
    { exampleRead with swr_get_out_samples := 800 } 512
    (fun c hc => by
      rw [htrace] at hc
      simp at hc
      subst hc
      decide)

end Spleeter
